import Mathlib

/-!
A shallow embedding of the floating web-view window manager implemented in
`crates/agent_ui/src/webview_manager.rs`.

The Rust code drives the Objective-C runtime through raw message sends.
That runtime is modelled here as an explicit state `Env`: which
Objective-C classes resolve, the main screen frame, the state of the one
floating `NSWindow`, and an ordered trace of the externally observable
effects (window creation, ordering operations, web-view creation, load
requests, log lines, close and release).  Window coordinates, which the
Rust code computes in `f64`, are modelled as rationals; the only
arithmetic performed is addition and subtraction of the given sizes with
the constant `100`, which is exact.

The manager struct itself, as in the source, stores only `current_url`;
the two raw pointers (`floating_window`, `ns_webview`) are represented by
the window and web-view state living inside `Env`.  The non-macOS
stand-in implementation is embedded separately in namespace `StandIn`.
-/

/-- A point in logical units (`NSPoint` / `gpui::Point<Pixels>`). -/
structure GPoint where
  x : ℚ
  y : ℚ
  deriving DecidableEq

/-- A size in logical units (`NSSize` / `gpui::Size<Pixels>`). -/
structure GSize where
  width : ℚ
  height : ℚ
  deriving DecidableEq

/-- `gpui::Bounds<Pixels>`; the code under study reads only `size`. -/
structure Bounds where
  origin : GPoint
  size : GSize
  deriving DecidableEq

/-- Externally observable effects issued to the native layer, in program
order.  `load` is a `loadRequest:` on the web view, `log` a line sent to
the logging sink, `close` and `release` the corresponding messages to the
floating window. -/
inductive Event where
  | createWindow
  | createWebView
  | orderFront
  | orderOut
  | close
  | release
  | load (url : String)
  | log (msg : String)
  deriving DecidableEq

/-- The frame of `NSScreen mainScreen` (Cocoa coordinates: origin at the
bottom-left corner, y growing upward). -/
structure ScreenFrame where
  originX : ℚ
  originY : ℚ
  width : ℚ
  height : ℚ
  deriving DecidableEq

/-- State of the floating `NSWindow` once it has been created:
its frame, whether it is ordered onto the screen, and whether it has
received a `release` message. -/
structure WindowState where
  frameX : ℚ
  frameY : ℚ
  frameW : ℚ
  frameH : ℚ
  visible : Bool
  released : Bool
  deriving DecidableEq

/-- The modelled Objective-C environment: the set of runtime classes that
`Class::get` resolves, the main screen frame, the floating window (absent
until construction creates it), and the trace of observable effects. -/
structure Env where
  classes : List String
  screen : ScreenFrame
  window : Option WindowState
  trace : List Event
  deriving DecidableEq

/-- Append one observable event to the trace. -/
def Env.emit (env : Env) (e : Event) : Env :=
  { env with trace := env.trace ++ [e] }

/-- `orderOut:` — removes the window from the screen without destroying
it. -/
def Env.orderOut (env : Env) : Env :=
  { env with window := env.window.map (fun w => { w with visible := false }),
             trace := env.trace ++ [Event.orderOut] }

/-- `makeKeyAndOrderFront:` — presents the window and gives it key
status. -/
def Env.makeKeyAndOrderFront (env : Env) : Env :=
  { env with window := env.window.map (fun w => { w with visible := true }),
             trace := env.trace ++ [Event.orderFront] }

/-- `close` — takes the window off the screen; since the window was
configured with `setReleasedWhenClosed:NO`, closing does not release
it. -/
def Env.closeWindow (env : Env) : Env :=
  { env with window := env.window.map (fun w => { w with visible := false }),
             trace := env.trace ++ [Event.close] }

/-- `release` — gives up the manager's ownership reference on the
window. -/
def Env.releaseWindow (env : Env) : Env :=
  { env with window := env.window.map (fun w => { w with released := true }),
             trace := env.trace ++ [Event.release] }

/-- `log::info!` — a line to the logging sink. -/
def Env.logLine (env : Env) (msg : String) : Env :=
  Env.emit env (Event.log msg)

/-- `loadRequest:` on the web view. -/
def Env.loadRequest (env : Env) (url : String) : Env :=
  Env.emit env (Event.load url)

/-- The Rust `WebViewManager` on the macOS/native path.  The two raw
pointers (`floating_window`, `ns_webview`) stand for the window and
web-view state held in `Env`; the struct carries the last requested
address. -/
structure WebViewManager where
  current_url : String
  deriving DecidableEq

/-- `WebViewManager::new` on the native path.  Mirrors the source line by
line: resolve `WKWebViewConfiguration` and `WKWebView` (early error
returns, nothing created yet); read the main screen frame and place the
window at `x = screen.origin.x + 100`,
`y = screen.origin.y + screen.height - height - 100`; alloc/init the
`NSWindow`; resolve `WKWebsiteDataStore` (an error return at this point
leaves the already-created window as it is); create the web view, issue
the initial load, present the window, and log creation.  The final
environment is returned on every path, successful or not, since the
message sends already performed are not undone by an early return. -/
def WebViewManager.new (env : Env) (_parent_window_ptr : Int)
    (bounds : Bounds) (url : String) : Except String WebViewManager × Env :=
  if "WKWebViewConfiguration" ∈ env.classes then
    if "WKWebView" ∈ env.classes then
      let width := bounds.size.width
      let height := bounds.size.height
      let x := env.screen.originX + 100
      let y := env.screen.originY + env.screen.height - height - 100
      let env1 : Env :=
        { env with
          window := some { frameX := x, frameY := y, frameW := width,
                           frameH := height, visible := false,
                           released := false },
          trace := env.trace ++ [Event.createWindow] }
      if "WKWebsiteDataStore" ∈ env1.classes then
        let env2 := Env.emit env1 Event.createWebView
        let env3 := Env.loadRequest env2 url
        let env4 := Env.makeKeyAndOrderFront env3
        let env5 := Env.logLine env4
          ("Created floating webview window (" ++ toString width ++ "x"
            ++ toString height ++ ")")
        (Except.ok { current_url := url }, env5)
      else
        (Except.error ("WKWebsiteDataStore class not found"), env1)
    else
      (Except.error ("WKWebView class not found"), env)
  else
    (Except.error ("WKWebViewConfiguration class not found"), env)

/-- `WebViewManager::navigate` on the native path: return immediately if
the address equals the stored one; otherwise store the new address, issue
a load request on the existing web view and log the change. -/
def WebViewManager.navigate (m : WebViewManager) (env : Env) (url : String) :
    WebViewManager × Env :=
  if m.current_url == url then
    (m, env)
  else
    ({ current_url := url },
     Env.logLine (Env.loadRequest env url) ("WebView navigated to: " ++ url))

/-- `WebViewManager::set_hidden` on the native path: `orderOut:` to hide,
`makeKeyAndOrderFront:` to show. -/
def WebViewManager.set_hidden (env : Env) (hidden : Bool) : Env :=
  if hidden then Env.orderOut env else Env.makeKeyAndOrderFront env

/-- `WebViewManager::is_visible` on the native path: the window's
`isVisible` (a message to `nil` would answer false). -/
def WebViewManager.is_visible (env : Env) : Bool :=
  match env.window with
  | some w => w.visible
  | none => false

/-- `impl Drop for WebViewManager`: log, close the window first when it is
still on screen, then release it.  Rust invokes this exactly once, at the
end of the instance's lifetime; the function is total, so disposal cannot
propagate an error. -/
def WebViewManager.drop (env : Env) : Env :=
  let env1 := Env.logLine env ("Cleaning up floating webview window")
  if WebViewManager.is_visible env1 then
    Env.releaseWindow (Env.closeWindow env1)
  else
    Env.releaseWindow env1

/-- The manager together with its native environment.  `navigate` takes
the manager by `&mut self` and may change both; `set_hidden` and
`is_visible` take `&self`, so they can touch only the native side. -/
structure SysState where
  mgr : WebViewManager
  env : Env
  deriving DecidableEq

/-- `navigate` acting on the combined state. -/
def sysNavigate (s : SysState) (url : String) : SysState :=
  let p := WebViewManager.navigate s.mgr s.env url
  { mgr := p.1, env := p.2 }

/-- `set_hidden` acting on the combined state (`&self`: the manager struct
is untouched, as in the source signature). -/
def sysSetHidden (s : SysState) (hidden : Bool) : SysState :=
  { s with env := WebViewManager.set_hidden s.env hidden }

/-- `is_visible` acting on the combined state. -/
def sysIsVisible (s : SysState) : Bool :=
  WebViewManager.is_visible s.env

/-- The operations a caller can perform on a live native-path manager. -/
inductive NativeOp where
  | nav (url : String)
  | hide (hidden : Bool)
  | vis
  deriving DecidableEq

/-- One operation on the combined state.  `is_visible` is a pure query
through `&self` and leaves the state unchanged. -/
def runOp (s : SysState) : NativeOp → SysState
  | NativeOp.nav url => sysNavigate s url
  | NativeOp.hide h => sysSetHidden s h
  | NativeOp.vis => s

/-- A sequence of operations on the combined state. -/
def runOps (s : SysState) : List NativeOp → SysState
  | [] => s
  | op :: rest => runOps (runOp s op) rest

/-- Spec-side definition for the refinement claim about `current_address`:
the address of the most recent address-changing request that was not
short-circuited, starting from the address stored at construction.  A
`navigate` whose argument equals the address current at that time is
short-circuited and leaves the latest accepted request unchanged. -/
def lastRequestedAddress (cur : String) : List NativeOp → String
  | [] => cur
  | NativeOp.nav url :: rest =>
      lastRequestedAddress (if cur = url then cur else url) rest
  | NativeOp.hide _ :: rest => lastRequestedAddress cur rest
  | NativeOp.vis :: rest => lastRequestedAddress cur rest

/-- Number of `loadRequest:` issuances recorded in a trace. -/
def countLoads (tr : List Event) : Nat :=
  (tr.filter fun e =>
    match e with
    | Event.load _ => true
    | _ => false).length

/-- Number of `release` messages recorded in a trace. -/
def countReleases (tr : List Event) : Nat :=
  (tr.filter fun e =>
    match e with
    | Event.release => true
    | _ => false).length

namespace StandIn

/-- The Rust `WebViewManager` on the non-macOS path: only the stored
address, no native handles. -/
structure WebViewManager where
  current_url : String
  deriving DecidableEq

/-- Non-macOS `WebViewManager::new`: always succeeds and stores only the
address; the parent pointer and the bounds are ignored. -/
def new (_parent : Int) (_bounds : Bounds) (url : String) :
    Except String WebViewManager :=
  Except.ok { current_url := url }

/-- Non-macOS `navigate`: store the new address unconditionally. -/
def navigate (_m : WebViewManager) (url : String) : WebViewManager :=
  { current_url := url }

/-- Non-macOS `set_hidden`: a no-op through `&self`. -/
def set_hidden (m : WebViewManager) (_hidden : Bool) : WebViewManager :=
  m

/-- Non-macOS `is_visible`: always false. -/
def is_visible (_m : WebViewManager) : Bool :=
  false

/-- Operations available on the stand-in manager. -/
inductive Op where
  | nav (url : String)
  | hide (hidden : Bool)
  deriving DecidableEq

/-- Run a sequence of stand-in operations. -/
def runOps (m : WebViewManager) : List Op → WebViewManager
  | [] => m
  | Op.nav url :: rest => runOps (navigate m url) rest
  | Op.hide h :: rest => runOps (set_hidden m h) rest

end StandIn

/-- An environment in which all three required WebKit classes resolve. -/
def envAll : Env :=
  { classes := ["WKWebViewConfiguration", "WKWebView", "WKWebsiteDataStore"],
    screen := { originX := 0, originY := 0, width := 1920, height := 1080 },
    window := none, trace := [] }

/-- An environment in which `WKWebsiteDataStore` does not resolve but the
two classes checked before window creation do. -/
def envNoDS : Env :=
  { classes := ["WKWebViewConfiguration", "WKWebView"],
    screen := { originX := 0, originY := 0, width := 1920, height := 1080 },
    window := none, trace := [] }

/-- A bare environment for exercising `navigate` on a live manager. -/
def env0 : Env :=
  { classes := [], screen := { originX := 0, originY := 0, width := 0, height := 0 },
    window := none, trace := [] }

/-- A concrete requested size. -/
def b0 : Bounds :=
  { origin := { x := 0, y := 0 }, size := { width := 480, height := 640 } }

/-- A concrete window that is currently on screen. -/
def w0 : WindowState :=
  { frameX := 100, frameY := 340, frameW := 480, frameH := 640,
    visible := true, released := false }

/-- An environment holding a created window, as after a successful
construction. -/
def envW : Env :=
  { classes := ["WKWebViewConfiguration", "WKWebView", "WKWebsiteDataStore"],
    screen := { originX := 0, originY := 0, width := 1920, height := 1080 },
    window := some w0, trace := [] }

/-- A live combined state on the native path. -/
def s0 : SysState :=
  { mgr := { current_url := "https://example.com" }, env := envW }

/-- Counting load requests distributes over trace concatenation. -/
theorem countLoads_append (t1 t2 : List Event) :
    countLoads (t1 ++ t2) = countLoads t1 + countLoads t2 := by
  simp [countLoads, List.filter_append]

/-- Counting release messages distributes over trace concatenation. -/
theorem countReleases_append (t1 t2 : List Event) :
    countReleases (t1 ++ t2) = countReleases t1 + countReleases t2 := by
  simp [countReleases, List.filter_append]

/-- C1: on the native path, navigating to the address that is already
stored is a no-op: the returned manager and the entire native environment
(hence the trace of load requests and log lines) are unchanged. -/
theorem navigate_same_url_noop (m : WebViewManager) (env : Env) :
    WebViewManager.navigate m env m.current_url = (m, env) := by
  simp [WebViewManager.navigate]

/-- C3: one invocation of the disposal path (Rust runs `drop` exactly once
per instance, at end of lifetime) first logs, then — when the window is
still on screen — closes it, and only then releases it; exactly one
release message is issued, and the function is total, so disposal cannot
propagate an error. -/
theorem drop_cleanup_spec (env : Env) :
    (WebViewManager.drop env).trace
      = env.trace ++ [Event.log ("Cleaning up floating webview window")]
          ++ (if WebViewManager.is_visible env then [Event.close] else [])
          ++ [Event.release] ∧
    countReleases (WebViewManager.drop env).trace
      = countReleases env.trace + 1 := by
  cases hw : env.window with
  | none =>
      constructor <;>
        simp [WebViewManager.drop, WebViewManager.is_visible, hw, Env.logLine,
          Env.emit, Env.closeWindow, Env.releaseWindow, countReleases,
          List.filter_append]
  | some w =>
      cases hv : w.visible <;>
        constructor <;>
          simp [WebViewManager.drop, WebViewManager.is_visible, hw, hv,
            Env.logLine, Env.emit, Env.closeWindow, Env.releaseWindow,
            countReleases, List.filter_append]

/-- C4: the non-native stand-in: construction always returns `Ok` and
stores only the address, navigation stores the new address
unconditionally, `set_hidden` is the identity on the manager for both
boolean inputs, and `is_visible` is false after any sequence of
operations. -/
theorem standin_contract :
    (∀ (p : Int) (b : Bounds) (url : String),
        StandIn.new p b url
          = Except.ok ({ current_url := url } : StandIn.WebViewManager)) ∧
    (∀ (m : StandIn.WebViewManager) (url : String),
        (StandIn.navigate m url).current_url = url) ∧
    (∀ (m : StandIn.WebViewManager) (hb : Bool),
        StandIn.set_hidden m hb = m) ∧
    (∀ (m : StandIn.WebViewManager) (ops : List StandIn.Op),
        StandIn.is_visible (StandIn.runOps m ops) = false) :=
  ⟨fun _ _ _ => rfl, fun _ _ => rfl, fun _ _ => rfl, fun _ _ => rfl⟩

/-- C8: hiding twice produces the same stored address and the same window
state (in particular the same visibility) as hiding once. -/
theorem set_hidden_true_idempotent (s : SysState) :
    (sysSetHidden (sysSetHidden s true) true).mgr.current_url
      = (sysSetHidden s true).mgr.current_url ∧
    (sysSetHidden (sysSetHidden s true) true).env.window
      = (sysSetHidden s true).env.window := by
  refine ⟨rfl, ?_⟩
  simp only [sysSetHidden, WebViewManager.set_hidden, if_pos, Env.orderOut]
  cases s.env.window <;> simp

/-- C10: frame property — `navigate` leaves the window (hence its
visibility) untouched, `set_hidden` leaves the stored address untouched,
and the `is_visible` query leaves the whole state untouched. -/
theorem frame_effects (s : SysState) (url : String) (b : Bool) :
    (sysNavigate s url).env.window = s.env.window ∧
    (sysSetHidden s b).mgr.current_url = s.mgr.current_url ∧
    runOp s NativeOp.vis = s := by
  refine ⟨?_, rfl, rfl⟩
  simp only [sysNavigate, WebViewManager.navigate]
  split <;> simp [Env.logLine, Env.loadRequest, Env.emit]

/-- C7: refinement of the `current_address` invariant.  First conjunct:
when construction returns a manager, its stored address is the initial
address (on the error results the statement is vacuous, so no hypothesis
is needed).  Second conjunct: after any sequence of operations the stored
address equals the spec-side `lastRequestedAddress` — the argument of the
latest `navigate` that was not short-circuited, or the starting address.
Loads are fire-and-forget in the model, so the invariant is independent of
load completion by construction. -/
theorem current_url_tracks_last_request :
    (∀ (env : Env) (p : Int) (b : Bounds) (url : String),
        Except.map WebViewManager.current_url (WebViewManager.new env p b url).1
          = Except.map (fun _ => url) (WebViewManager.new env p b url).1) ∧
    (∀ (s : SysState) (ops : List NativeOp),
        (runOps s ops).mgr.current_url
          = lastRequestedAddress s.mgr.current_url ops) := by
  constructor
  · intro env p b url
    by_cases h1 : "WKWebViewConfiguration" ∈ env.classes <;>
      by_cases h2 : "WKWebView" ∈ env.classes <;>
        by_cases h3 : "WKWebsiteDataStore" ∈ env.classes <;>
          simp [WebViewManager.new, h1, h2, h3, Except.map]
  · intro s ops
    induction ops generalizing s with
    | nil => rfl
    | cons op rest ih =>
        cases op with
        | nav url =>
            have h : (sysNavigate s url).mgr.current_url
                = if s.mgr.current_url = url then s.mgr.current_url else url := by
              by_cases hc : s.mgr.current_url = url <;>
                simp [sysNavigate, WebViewManager.navigate, hc]
            calc (runOps s (NativeOp.nav url :: rest)).mgr.current_url
                = (runOps (sysNavigate s url) rest).mgr.current_url := rfl
              _ = lastRequestedAddress (sysNavigate s url).mgr.current_url rest :=
                  ih _
              _ = lastRequestedAddress
                    (if s.mgr.current_url = url then s.mgr.current_url else url)
                    rest := by rw [h]
              _ = lastRequestedAddress s.mgr.current_url
                    (NativeOp.nav url :: rest) := rfl
        | hide hb =>
            calc (runOps s (NativeOp.hide hb :: rest)).mgr.current_url
                = (runOps (sysSetHidden s hb) rest).mgr.current_url := rfl
              _ = lastRequestedAddress (sysSetHidden s hb).mgr.current_url rest :=
                  ih _
              _ = lastRequestedAddress s.mgr.current_url
                    (NativeOp.hide hb :: rest) := rfl
        | vis => exact ih s

/-- C9: on the native path, for every requested size, construction places
the window at `x = screen origin x + 100` and with its top edge
(`frameY + frameH`, Cocoa coordinates grow upward) 100 logical units below
the top of the primary screen, independent of the requested size. -/
theorem window_placement (env : Env) (p : Int) (b : Bounds) (url : String)
    (h1 : "WKWebViewConfiguration" ∈ env.classes)
    (h2 : "WKWebView" ∈ env.classes)
    (h3 : "WKWebsiteDataStore" ∈ env.classes) :
    Option.map WindowState.frameX (WebViewManager.new env p b url).2.window
      = some (env.screen.originX + 100) ∧
    Option.map (fun w => w.frameY + w.frameH)
        (WebViewManager.new env p b url).2.window
      = some (env.screen.originY + env.screen.height - 100) := by
  constructor <;>
  · simp only [WebViewManager.new]
    rw [if_pos h1, if_pos h2]
    simp only [Env.logLine, Env.emit, Env.loadRequest, Env.makeKeyAndOrderFront]
    rw [if_pos h3]
    simp [Option.map, Env.emit]
    try ring

/-- Witness for `window_placement` at a concrete environment and size. -/
theorem window_placement_witness :
    (("WKWebViewConfiguration" ∈ envAll.classes) ∧
     ("WKWebView" ∈ envAll.classes) ∧
     ("WKWebsiteDataStore" ∈ envAll.classes)) ∧
    (Option.map WindowState.frameX
        (WebViewManager.new envAll 0 b0 ("https://example.com")).2.window
      = some (envAll.screen.originX + 100) ∧
     Option.map (fun w => w.frameY + w.frameH)
        (WebViewManager.new envAll 0 b0 ("https://example.com")).2.window
      = some (envAll.screen.originY + envAll.screen.height - 100)) :=
  ⟨⟨by decide, by decide, by decide⟩,
   window_placement envAll 0 b0 ("https://example.com")
     (by decide) (by decide) (by decide)⟩

/-- C6 counterexample: in an environment where `WKWebsiteDataStore` does
not resolve, construction creates the native window and then returns the
error without a single release message — the already-created window is not
released before the error is returned. -/
theorem new_no_release_counterexample :
    (WebViewManager.new envNoDS 0 b0 ("https://example.com")).1
      = Except.error ("WKWebsiteDataStore class not found") ∧
    Event.createWindow ∈ (WebViewManager.new envNoDS 0 b0 ("https://example.com")).2.trace ∧
    countReleases (WebViewManager.new envNoDS 0 b0 ("https://example.com")).2.trace = 0 := by
  refine ⟨by rfl, by decide, by decide⟩

/-- C6 amended: when `WKWebViewConfiguration` and `WKWebView` resolve but
`WKWebsiteDataStore` does not, `new` fails after the native window has
been created, and the error is returned without releasing that window:
the trace gains only the creation event (no release), and the window is
left behind unreleased.  The two earlier class-resolution failures happen
before anything is created. -/
theorem new_datastore_failure_leak (env : Env) (p : Int) (b : Bounds)
    (url : String)
    (h1 : "WKWebViewConfiguration" ∈ env.classes)
    (h2 : "WKWebView" ∈ env.classes)
    (h3 : "WKWebsiteDataStore" ∉ env.classes) :
    (WebViewManager.new env p b url).1
      = Except.error ("WKWebsiteDataStore class not found") ∧
    (WebViewManager.new env p b url).2.trace
      = env.trace ++ [Event.createWindow] ∧
    Option.map WindowState.released (WebViewManager.new env p b url).2.window
      = some false := by
  refine ⟨?_, ?_, ?_⟩ <;> simp [WebViewManager.new, h1, h2, h3]

/-- Witness for `new_datastore_failure_leak` at a concrete environment. -/
theorem new_datastore_failure_leak_witness :
    (("WKWebViewConfiguration" ∈ envNoDS.classes) ∧
     ("WKWebView" ∈ envNoDS.classes) ∧
     ("WKWebsiteDataStore" ∉ envNoDS.classes)) ∧
    ((WebViewManager.new envNoDS 0 b0 ("https://a")).1
      = Except.error ("WKWebsiteDataStore class not found") ∧
     (WebViewManager.new envNoDS 0 b0 ("https://a")).2.trace
      = envNoDS.trace ++ [Event.createWindow] ∧
     Option.map WindowState.released
        (WebViewManager.new envNoDS 0 b0 ("https://a")).2.window
      = some false) :=
  ⟨⟨by decide, by decide, by decide⟩,
   new_datastore_failure_leak envNoDS 0 b0 ("https://a")
     (by decide) (by decide) (by decide)⟩

/-- C2 counterexample: when `addr1` already equals the stored address, the
first `navigate` short-circuits, so the pair of calls issues exactly one
load request, not two: starting from a manager storing `https://a`,
navigating to `https://a` and then to `https://b` adds one load. -/
theorem navigate_pair_counterexample :
    (("https://a" : String) ≠ "https://b") ∧
    ({ current_url := "https://a" } : WebViewManager).current_url
      = "https://a" ∧
    countLoads (WebViewManager.navigate
        (WebViewManager.navigate { current_url := "https://a" } env0
          ("https://a")).1
        (WebViewManager.navigate { current_url := "https://a" } env0
          ("https://a")).2
        ("https://b")).2.trace
      ≠ countLoads env0.trace + 2 := by
  refine ⟨by decide, rfl, by decide⟩

/-- C2 amended: navigating to `addr1` and then to `addr2` with
`addr1 ≠ addr2` always leaves the stored address equal to `addr2`; it
issues exactly two load requests when `addr1` also differs from the
address stored beforehand, and exactly one load request when `addr1`
equals the stored address (the first call short-circuits). -/
theorem navigate_pair_loads (m : WebViewManager) (env : Env)
    (a1 a2 : String) (hne : a1 ≠ a2) :
    ((WebViewManager.navigate (WebViewManager.navigate m env a1).1
        (WebViewManager.navigate m env a1).2 a2).1.current_url = a2) ∧
    (m.current_url ≠ a1 →
      countLoads (WebViewManager.navigate (WebViewManager.navigate m env a1).1
          (WebViewManager.navigate m env a1).2 a2).2.trace
        = countLoads env.trace + 2) ∧
    (m.current_url = a1 →
      countLoads (WebViewManager.navigate (WebViewManager.navigate m env a1).1
          (WebViewManager.navigate m env a1).2 a2).2.trace
        = countLoads env.trace + 1) := by
  by_cases hm : m.current_url = a1
  · have hm2 : m.current_url ≠ a2 := by rw [hm]; exact hne
    refine ⟨?_, fun h => absurd hm h, fun _ => ?_⟩ <;>
      simp [WebViewManager.navigate, hm, hne, hm2, Env.loadRequest,
        Env.logLine, Env.emit, countLoads, List.filter_append]
  · refine ⟨?_, fun _ => ?_, fun h => absurd h hm⟩ <;>
      simp [WebViewManager.navigate, hm, hne, Env.loadRequest,
        Env.logLine, Env.emit, countLoads, List.filter_append]

/-- Witness for `navigate_pair_loads` at concrete addresses. -/
theorem navigate_pair_loads_witness :
    (("https://a" : String) ≠ "https://b") ∧
    (((WebViewManager.navigate (WebViewManager.navigate
          { current_url := "https://x" } env0 ("https://a")).1
        (WebViewManager.navigate { current_url := "https://x" } env0
          ("https://a")).2 ("https://b")).1.current_url = "https://b") ∧
     (({ current_url := "https://x" } : WebViewManager).current_url
          ≠ "https://a" →
       countLoads (WebViewManager.navigate (WebViewManager.navigate
            { current_url := "https://x" } env0 ("https://a")).1
          (WebViewManager.navigate { current_url := "https://x" } env0
            ("https://a")).2 ("https://b")).2.trace
         = countLoads env0.trace + 2) ∧
     (({ current_url := "https://x" } : WebViewManager).current_url
          = "https://a" →
       countLoads (WebViewManager.navigate (WebViewManager.navigate
            { current_url := "https://x" } env0 ("https://a")).1
          (WebViewManager.navigate { current_url := "https://x" } env0
            ("https://a")).2 ("https://b")).2.trace
         = countLoads env0.trace + 1)) :=
  ⟨by decide,
   navigate_pair_loads { current_url := "https://x" } env0
     ("https://a") ("https://b") (by decide)⟩

/-- C5 counterexample: on the stand-in path (cited by the claim through
the non-macOS `is_visible`), showing the window and then querying
visibility does not return true — the stand-in always reports false. -/
theorem set_hidden_stand_in_counterexample :
    StandIn.is_visible
        (StandIn.set_hidden
          ({ current_url := "https://a" } : StandIn.WebViewManager) false)
      ≠ true := by
  decide

/-- C5 amended: on the native path, for a manager whose window exists
(construction succeeded), hiding and then querying yields false and
showing and then querying yields true, from any prior state; `set_hidden`
only sends an ordering message (the trace gains exactly one `orderOut` or
`orderFront` event, so nothing is recreated) and the stored address is
untouched.  On the stand-in path `is_visible` always reports false. -/
theorem set_hidden_visibility (s : SysState)
    (h : s.env.window.isSome = true) :
    sysIsVisible (sysSetHidden s true) = false ∧
    sysIsVisible (sysSetHidden s false) = true ∧
    (sysSetHidden s true).env.trace = s.env.trace ++ [Event.orderOut] ∧
    (sysSetHidden s false).env.trace = s.env.trace ++ [Event.orderFront] ∧
    (sysSetHidden s true).mgr = s.mgr ∧
    (sysSetHidden s false).mgr = s.mgr := by
  obtain ⟨w, hw⟩ := Option.isSome_iff_exists.mp h
  refine ⟨?_, ?_, rfl, rfl, rfl, rfl⟩ <;>
    simp [sysIsVisible, sysSetHidden, WebViewManager.set_hidden,
      WebViewManager.is_visible, Env.orderOut, Env.makeKeyAndOrderFront, hw]

/-- Witness for `set_hidden_visibility` at a concrete live state. -/
theorem set_hidden_visibility_witness :
    (s0.env.window.isSome = true) ∧
    (sysIsVisible (sysSetHidden s0 true) = false ∧
     sysIsVisible (sysSetHidden s0 false) = true ∧
     (sysSetHidden s0 true).env.trace = s0.env.trace ++ [Event.orderOut] ∧
     (sysSetHidden s0 false).env.trace = s0.env.trace ++ [Event.orderFront] ∧
     (sysSetHidden s0 true).mgr = s0.mgr ∧
     (sysSetHidden s0 false).mgr = s0.mgr) :=
  ⟨by decide, set_hidden_visibility s0 (by decide)⟩
